import Mathlib

/-!
Shallow embedding of `src/desktop_ui/src-tauri/src/main.rs` from the
AI-Karen repository.

The Rust source is:

```
fn main() {
    if let Err(e) = ensure_backend() {
        eprintln!("Warning: {e}");
    }
    tauri::Builder::default()
        .run(tauri::generate_context!())
        .expect("error while running Tauri application");
}

fn ensure_backend() -> Result<(), String> {
    let addr = std::env::var("KARI_BACKEND").unwrap_or_else(|_| "127.0.0.1:8000".into());
    std::net::TcpStream::connect(&addr)
        .map(|_| ())
        .map_err(|_| format!("Backend at {addr} not reachable"))
}
```

The environment is a map from variable names to possibly non-Unicode
values; the network is an oracle saying which well-formed `host:port`
addresses accept a TCP connection; the GUI host's run outcome is a
further oracle.  `main` is embedded as a function producing the ordered
list of observable events of one execution.
-/

namespace KarenDesktop

/-- Error type of `std::env::var`: the variable is absent, or present but
not valid Unicode. -/
inductive VarError where
  | notPresent : VarError
  | notUnicode : VarError
deriving DecidableEq, Repr

/-- The process environment: maps a variable name to `none` (unset),
`some none` (set to a non-Unicode value), or `some (some s)` (set to the
Unicode string `s`). -/
def Env : Type := String → Option (Option String)

/-- Model of `std::env::var`: returns the value only when the variable is
present and valid Unicode, and otherwise reports which error occurred. -/
def envVar (env : Env) (key : String) : Except VarError String :=
  match env key with
  | none => .error .notPresent
  | some none => .error .notUnicode
  | some (some s) => .ok s

/-- The address chosen on line 11 of `main.rs`:
`std::env::var("KARI_BACKEND").unwrap_or_else(|_| "127.0.0.1:8000".into())`. -/
def chosenAddr (env : Env) : String :=
  match envVar env "KARI_BACKEND" with
  | .ok s => s
  | .error _ => "127.0.0.1:8000"

/-- Split a string at its last colon, returning the part before and the
part after.  Returns `none` when the string has no colon.  This mirrors
how Rust's `ToSocketAddrs for str` separates the host from the port. -/
def splitLastColon (s : String) : Option (String × String) :=
  match (s.toList.reverse.span (· ≠ ':')) with
  | (revPort, ':' :: revHost) => some (⟨revHost.reverse⟩, ⟨revPort.reverse⟩)
  | _ => none

/-- Fold a digit sequence to its value, failing on any non-digit. -/
def digitsToNat (cs : List Char) : Option Nat :=
  cs.foldl
    (fun acc c =>
      match acc with
      | none => none
      | some n => if c.isDigit then some (n * 10 + (c.toNat - 48)) else none)
    (some 0)

/-- Model of `str::parse::<u16>`: an optional leading `+`, then a
nonempty digit sequence whose value fits in 16 bits. -/
def parseU16 (s : String) : Option Nat :=
  let cs :=
    match s.toList with
    | '+' :: rest => rest
    | cs => cs
  if cs.isEmpty then none
  else
    match digitsToNat cs with
    | some n => if n < 65536 then some n else none
    | none => none

/-- A string is a well-formed `host:port` socket address exactly when it
has a colon and the text after the last colon parses as a 16-bit port.
This is the parse step Rust's `ToSocketAddrs for str` performs before any
connection or name resolution is attempted. -/
def parseHostPort (s : String) : Option (String × Nat) :=
  match splitLastColon s with
  | some (h, p) =>
      match parseU16 p with
      | some n => some (h, n)
      | none => none
  | none => none

/-- Model of `std::net::TcpStream::connect(&addr)`.  A string that is not
parseable as `host:port` always fails; a well-formed address succeeds
exactly when the network oracle `net` says a listener accepts the
connection.  The concrete I/O error is discarded by the caller, so the
error payload is `Unit`. -/
def tcpConnect (net : String → Bool) (addr : String) : Except Unit Unit :=
  match parseHostPort addr with
  | none => .error ()
  | some _ => if net addr then .ok () else .error ()

/-- Embedding of `ensure_backend` (lines 10–15 of `main.rs`): choose the
address, attempt one TCP connect, map success to `()` and failure to the
formatted message `Backend at {addr} not reachable`. -/
def ensure_backend (env : Env) (net : String → Bool) : Except String Unit :=
  let addr := chosenAddr env
  match tcpConnect net addr with
  | .ok _ => .ok ()
  | .error _ => .error ("Backend at " ++ addr ++ " not reachable")

/-- The Tauri framework plugins the spec mentions. -/
inductive Plugin where
  | http : Plugin
  | shell : Plugin
  | log : Plugin
deriving DecidableEq, Repr

/-- The visible configuration of `tauri::Builder`: the list of registered
plugins.  `tauri::Builder::default()` registers none. -/
structure BuilderConfig where
  plugins : List Plugin
deriving DecidableEq, Repr

/-- Model of `tauri::Builder::default()`. -/
def builderDefault : BuilderConfig := { plugins := [] }

/-- Model of the compile-time artifact `tauri::generate_context!()`: a
fixed value independent of the environment and the network. -/
structure TauriContext where
  fixed : Unit
deriving DecidableEq, Repr

/-- The one generated context of this crate. -/
def generatedContext : TauriContext := ⟨()⟩

/-- Observable events of one execution, in program order. -/
inductive Event where
  /-- A TCP connect was attempted to `addr`. -/
  | connectAttempt (addr : String) : Event
  /-- `msg` was printed to standard error by `eprintln!`. -/
  | warn (msg : String) : Event
  /-- The GUI host's run loop was entered with builder `cfg` and context
  `ctx`. -/
  | hostRun (cfg : BuilderConfig) (ctx : TauriContext) : Event
  /-- The process aborted via panic with message `msg`. -/
  | fatal (msg : String) : Event
deriving DecidableEq, Repr

/-- Embedding of `main` (lines 1–8 of `main.rs`) as the event trace of
one execution: the single connect attempt inside `ensure_backend`, then
the warning if and only if the probe failed, then the host run with the
default builder and the generated context, then the `expect` panic if
and only if the host's run call returned an error. -/
def mainTrace (env : Env) (net : String → Bool)
    (hostOutcome : Except Unit Unit) : List Event :=
  Event.connectAttempt (chosenAddr env) ::
    (match ensure_backend env net with
      | .error e => [Event.warn ("Warning: " ++ e)]
      | .ok _ => []) ++
    [Event.hostRun builderDefault generatedContext] ++
    (match hostOutcome with
      | .error _ => [Event.fatal "error while running Tauri application"]
      | .ok _ => [])

/-- Modelled from the spec: the repository's other entry point — absent
from `src/`, described by the spec as registering the HTTP-client,
shell/process-execution and logging framework plugins with the desktop
application host before handing control to it.  Its trace is the host
run with those plugins registered on the builder. -/
def mainPluginsTrace : List Event :=
  [Event.hostRun { plugins := [Plugin.http, Plugin.shell, Plugin.log] }
    generatedContext]

/-- Is the event a TCP connect attempt? -/
def isConnectAttempt : Event → Bool
  | .connectAttempt _ => true
  | _ => false

/-- Is the event a host-run invocation? -/
def isHostRun : Event → Bool
  | .hostRun _ _ => true
  | _ => false

/-- The host-run invocations of a trace, with their builder
configuration and context. -/
def hostEvents (t : List Event) : List Event := t.filter isHostRun

/-- C1: for every outcome of the connectivity probe, `main` prints a
warning to standard error exactly when `ensure_backend` returns an error
and prints none on success, and in either case it proceeds to invoke the
GUI host's run loop: a probe failure never aborts startup. -/
theorem main_warns_iff_probe_error (env : Env) (net : String → Bool)
    (h : Except Unit Unit) :
    ((∃ m, Event.warn m ∈ mainTrace env net h) ↔
      ∃ e, ensure_backend env net = Except.error e) ∧
    Event.hostRun builderDefault generatedContext ∈ mainTrace env net h := by
  cases heq : ensure_backend env net <;> cases h <;>
    simp [mainTrace, heq]

/-- C1 witness: with every variable unset and an unreachable network, a
warning is printed and the host still starts. -/
theorem main_warns_iff_probe_error_witness :
    (∃ m, Event.warn m ∈
      mainTrace (fun _ => none) (fun _ => false) (Except.ok ())) ∧
    Event.hostRun builderDefault generatedContext ∈
      mainTrace (fun _ => none) (fun _ => false) (Except.ok ()) :=
  ⟨(main_warns_iff_probe_error (fun _ => none) (fun _ => false)
      (Except.ok ())).1.mpr ⟨"Backend at 127.0.0.1:8000 not reachable", rfl⟩,
   (main_warns_iff_probe_error (fun _ => none) (fun _ => false)
      (Except.ok ())).2⟩

/-- C2: for every address chosen by `ensure_backend`, the probe returns
success exactly when the TCP connect to that address succeeds, and every
error message contains the attempted address as a substring. -/
theorem ensure_backend_iff_connect (env : Env) (net : String → Bool) :
    (ensure_backend env net = Except.ok () ↔
      tcpConnect net (chosenAddr env) = Except.ok ()) ∧
    ∀ e, ensure_backend env net = Except.error e →
      ∃ pre post, e = pre ++ chosenAddr env ++ post := by
  constructor
  · unfold ensure_backend
    cases heq : tcpConnect net (chosenAddr env) <;> simp [heq]
  · intro e he
    refine ⟨"Backend at ", " not reachable", ?_⟩
    unfold ensure_backend at he
    cases heq : tcpConnect net (chosenAddr env) with
    | ok v => simp [heq] at he
    | error v => simp [heq] at he; exact he.symm

/-- C2 witness: with the default address and an unreachable network, the
error message decomposes around the attempted address. -/
theorem ensure_backend_iff_connect_witness :
    ∃ pre post,
      "Backend at 127.0.0.1:8000 not reachable" =
        pre ++ "127.0.0.1:8000" ++ post :=
  (ensure_backend_iff_connect (fun _ => none) (fun _ => false)).2
    "Backend at 127.0.0.1:8000 not reachable" rfl

/-- C3: when `KARI_BACKEND` is unset, `ensure_backend` uses exactly the
default address `127.0.0.1:8000` as the connect target, and the connect
attempt in the trace is to that address. -/
theorem ensure_backend_default_addr (env : Env) (net : String → Bool)
    (h : Except Unit Unit) (hu : env "KARI_BACKEND" = none) :
    chosenAddr env = "127.0.0.1:8000" ∧
    Event.connectAttempt "127.0.0.1:8000" ∈ mainTrace env net h := by
  have hca : chosenAddr env = "127.0.0.1:8000" := by
    simp [chosenAddr, envVar, hu]
  refine ⟨hca, ?_⟩
  cases heq : ensure_backend env net <;> cases h <;>
    simp [mainTrace, heq, hca]

/-- C3 witness: the empty environment picks the default address. -/
theorem ensure_backend_default_addr_witness :
    chosenAddr (fun _ => none) = "127.0.0.1:8000" ∧
    Event.connectAttempt "127.0.0.1:8000" ∈
      mainTrace (fun _ => none) (fun _ => true) (Except.ok ()) :=
  ensure_backend_default_addr (fun _ => none) (fun _ => true)
    (Except.ok ()) rfl

/-- C4: when `KARI_BACKEND` holds a value not parseable as `host:port`,
the connect attempt fails whatever the network does, `ensure_backend`
returns an error, a non-fatal warning is printed, the host still starts,
and the whole observable trace is identical to the one of a run whose
network refuses every connection. -/
theorem ensure_backend_malformed (env : Env) (net : String → Bool)
    (h : Except Unit Unit) (v : String)
    (hv : env "KARI_BACKEND" = some (some v))
    (hm : parseHostPort v = none) :
    (∃ e, ensure_backend env net = Except.error e) ∧
    (∃ m, Event.warn m ∈ mainTrace env net h) ∧
    Event.hostRun builderDefault generatedContext ∈ mainTrace env net h ∧
    mainTrace env net h = mainTrace env (fun _ => false) h := by
  have hca : chosenAddr env = v := by
    simp [chosenAddr, envVar, hv]
  have ht : ∀ net' : String → Bool, tcpConnect net' v = Except.error () := by
    intro net'
    simp [tcpConnect, hm]
  have he : ∀ net' : String → Bool,
      ensure_backend env net' = Except.error ("Backend at " ++ v ++ " not reachable") := by
    intro net'
    simp [ensure_backend, hca, ht]
  cases h <;> simp [mainTrace, he]

/-- C4 witness: the value `nonsense` has no colon, so the probe fails
even on a fully permissive network and the trace matches the
unreachable run. -/
theorem ensure_backend_malformed_witness :
    (∃ e, ensure_backend
        (fun k => if k = "KARI_BACKEND" then some (some "nonsense") else none)
        (fun _ => true) = Except.error e) ∧
    (∃ m, Event.warn m ∈ mainTrace
        (fun k => if k = "KARI_BACKEND" then some (some "nonsense") else none)
        (fun _ => true) (Except.ok ())) ∧
    Event.hostRun builderDefault generatedContext ∈ mainTrace
        (fun k => if k = "KARI_BACKEND" then some (some "nonsense") else none)
        (fun _ => true) (Except.ok ()) ∧
    mainTrace
        (fun k => if k = "KARI_BACKEND" then some (some "nonsense") else none)
        (fun _ => true) (Except.ok ()) =
      mainTrace
        (fun k => if k = "KARI_BACKEND" then some (some "nonsense") else none)
        (fun _ => false) (Except.ok ()) :=
  ensure_backend_malformed
    (fun k => if k = "KARI_BACKEND" then some (some "nonsense") else none)
    (fun _ => true) (Except.ok ()) "nonsense" (by decide) (by decide)

/-- C5: the probe's error is never propagated to the GUI host: any two
runs with the same host outcome, whatever their environment and network
(hence whatever `ensure_backend` returned), invoke the host with the
same builder configuration and generated context. -/
theorem host_invocation_independent_of_probe (env₁ env₂ : Env)
    (net₁ net₂ : String → Bool) (h : Except Unit Unit) :
    hostEvents (mainTrace env₁ net₁ h) = hostEvents (mainTrace env₂ net₂ h) := by
  have key : ∀ (env : Env) (net : String → Bool),
      hostEvents (mainTrace env net h) =
        [Event.hostRun builderDefault generatedContext] := by
    intro env net
    cases heq : ensure_backend env net <;> cases h <;>
      simp [hostEvents, mainTrace, heq, isHostRun, List.filter]
  rw [key env₁ net₁, key env₂ net₂]

/-- C6: the plugin-registering entry point (modelled from the spec, its
source being absent from `src/`) invokes the host with the HTTP-client,
shell/process-execution and logging plugins registered on the builder,
so registration happens before the host starts. -/
theorem plugins_registered_before_host_start :
    ∃ cfg ctx, Event.hostRun cfg ctx ∈ mainPluginsTrace ∧
      cfg.plugins = [Plugin.http, Plugin.shell, Plugin.log] := by
  refine ⟨{ plugins := [Plugin.http, Plugin.shell, Plugin.log] },
    generatedContext, ?_, rfl⟩
  simp [mainPluginsTrace]

/-- C7: every execution of `main` performs exactly one connect attempt —
it is the first event, and none occurs afterwards — and a host-run event
occurs strictly after it. -/
theorem single_connect_before_host (env : Env) (net : String → Bool)
    (h : Except Unit Unit) :
    ∃ rest, mainTrace env net h = Event.connectAttempt (chosenAddr env) :: rest ∧
      rest.countP isConnectAttempt = 0 ∧
      ∃ cfg ctx, Event.hostRun cfg ctx ∈ rest := by
  cases heq : ensure_backend env net <;> cases h <;>
    simp [mainTrace, heq, isConnectAttempt, List.countP, List.countP.go]

/-- C8: a non-Unicode value of `KARI_BACKEND` takes `std::env::var`'s
error branch (as `NotUnicode`), so `ensure_backend` falls back to the
default `127.0.0.1:8000` and behaves exactly as if the variable were
unset. -/
theorem non_unicode_uses_default (env : Env) (net : String → Bool)
    (hv : env "KARI_BACKEND" = some none) :
    envVar env "KARI_BACKEND" = Except.error VarError.notUnicode ∧
    chosenAddr env = "127.0.0.1:8000" ∧
    ensure_backend env net = ensure_backend (fun _ => none) net := by
  have h1 : envVar env "KARI_BACKEND" = Except.error VarError.notUnicode := by
    simp [envVar, hv]
  have h2 : chosenAddr env = "127.0.0.1:8000" := by
    simp [chosenAddr, h1]
  refine ⟨h1, h2, ?_⟩
  have h3 : chosenAddr (fun _ => none) = "127.0.0.1:8000" := rfl
  simp [ensure_backend, h2, h3]

/-- C8 witness: an environment whose `KARI_BACKEND` is set to a
non-Unicode value behaves like the empty environment. -/
theorem non_unicode_uses_default_witness :
    envVar (fun k => if k = "KARI_BACKEND" then some none else none)
        "KARI_BACKEND" = Except.error VarError.notUnicode ∧
    chosenAddr (fun k => if k = "KARI_BACKEND" then some none else none) =
      "127.0.0.1:8000" ∧
    ensure_backend (fun k => if k = "KARI_BACKEND" then some none else none)
        (fun _ => false) =
      ensure_backend (fun _ => none) (fun _ => false) :=
  non_unicode_uses_default
    (fun k => if k = "KARI_BACKEND" then some none else none)
    (fun _ => false) (by decide)

/-- C9: `ensure_backend` is total: for every environment and network it
returns either `Ok(())` or `Err(String)`; no other control path exists. -/
theorem ensure_backend_total (env : Env) (net : String → Bool) :
    ensure_backend env net = Except.ok () ∨
    ∃ s, ensure_backend env net = Except.error s := by
  cases heq : ensure_backend env net with
  | ok v => exact Or.inl rfl
  | error s => exact Or.inr ⟨s, rfl⟩

/-- C10: `main` aborts via panic with the message
`error while running Tauri application` if and only if the host's run
call returned an error; a host-run error, unlike a probe error, is
fatal. -/
theorem main_fatal_iff_host_error (env : Env) (net : String → Bool)
    (h : Except Unit Unit) :
    Event.fatal "error while running Tauri application" ∈ mainTrace env net h ↔
      h = Except.error () := by
  cases heq : ensure_backend env net <;> cases h <;>
    simp [mainTrace, heq]

/-- C10 witness: a failing host run makes the panic event appear. -/
theorem main_fatal_iff_host_error_witness :
    Event.fatal "error while running Tauri application" ∈
      mainTrace (fun _ => none) (fun _ => true) (Except.error ()) :=
  (main_fatal_iff_host_error (fun _ => none) (fun _ => true)
    (Except.error ())).mpr rfl

end KarenDesktop
